import Mathlib

/-!
Verification of the x402 payment-gate macro and its example Anchor program.

The definitions below are a shallow embedding of:
- the guard code generated by the x402 attribute in x402-macros/src/lib.rs
  (transaction introspection, dual-layout payment decoding, amount and
  recipient checks),
- the argument extractors of that macro (extract_price, extract_recipient),
- the instruction handlers of x402-example/src/lib.rs (free_compute,
  verify_payment, record_payment) and their persisted account records.

Public keys are represented by their base58 strings, byte payloads by lists
of naturals below 256, and u64 values by naturals below 2 ^ 64.
-/

namespace X402

abbrev Pubkey := String

/-- Error kinds of the generated guard. The generated code collapses every
failure to ProgramError.InvalidArgument except the amount check, which
returns ProgramError.InsufficientFunds; the constructors here name the
distinct early-return sites of the guard, using the names the specification
gives those sites. -/
inductive X402Error where
  | MissingIntrospectionSource
  | IndexOutOfRange
  | MissingPaymentInstruction
  | MalformedPaymentPayload
  | InsufficientPayment
  | InvalidRecipient
deriving DecidableEq, Repr

/-- The two ProgramError values the generated guard actually returns. -/
inductive ProgramError where
  | InvalidArgument
  | InsufficientFunds
deriving DecidableEq, Repr

/-- Mapping from guard return sites to the ProgramError values returned by
the generated code. -/
def X402Error.toProgramError : X402Error → ProgramError
  | .InsufficientPayment => .InsufficientFunds
  | _ => .InvalidArgument

/-- One instruction of the enclosing transaction: the ordered pubkeys of its
account references and its opaque byte payload. -/
structure Instruction where
  accounts : List Pubkey
  data : List Nat
deriving DecidableEq, Repr

/-- u64::from_le_bytes applied to a little-endian byte list. -/
def u64_from_le_bytes (bs : List Nat) : Nat :=
  bs.foldr (fun b acc => b + 256 * acc) 0

/-- The dual-layout payment-amount decoding of the generated guard: a payload
of length at least 16 decodes the little-endian u64 at byte offsets 8..16, a
payload of length exactly 8 decodes the little-endian u64 at offsets 0..8,
and any other length is rejected. -/
def decodePaymentAmount (data : List Nat) : Except X402Error Nat :=
  if 16 ≤ data.length then .ok (u64_from_le_bytes ((data.drop 8).take 8))
  else if data.length = 8 then .ok (u64_from_le_bytes (data.take 8))
  else .error .MalformedPaymentPayload

/-- The verification sequence of the generated guard, starting from a loaded
current index and instruction list: index 0 has no predecessor; otherwise the
predecessor instruction is loaded, its payload decoded, the amount compared
against the required amount, and the account reference at index 1 compared
against the expected recipient. -/
def x402Verify (required : Nat) (expected : Pubkey) (currentIndex : Nat)
    (instrs : List Instruction) : Except X402Error Unit :=
  if currentIndex = 0 then .error .MissingPaymentInstruction
  else
    match instrs.get? (currentIndex - 1) with
    | none => .error .IndexOutOfRange
    | some prev =>
      match decodePaymentAmount prev.data with
      | .error e => .error e
      | .ok amount =>
        if amount < required then .error .InsufficientPayment
        else if prev.accounts.get? 1 = some expected then .ok ()
        else .error .InvalidRecipient

/-- The guard including the introspection-sysvar lookup that precedes the
index check in the generated code: a missing or unreadable sysvar fails
before any verification. -/
def x402Guard (required : Nat) (expected : Pubkey)
    (introspection : Option (Nat × List Instruction)) : Except X402Error Unit :=
  match introspection with
  | none => .error .MissingIntrospectionSource
  | some (i, instrs) => x402Verify required expected i instrs

/-- The one-shot output record of a gated or free call. -/
structure ComputeResult where
  owner : Pubkey
  value : Nat
  paid : Bool
deriving DecidableEq, Repr

/-- A gated operation as expanded by the macro: the guard runs first; on any
guard failure the error is returned and the pre-existing result state is
untouched; only on success does the body run, producing a paid result owned
by the payer. -/
def runGated (required : Nat) (expected : Pubkey) (currentIndex : Nat)
    (instrs : List Instruction) (payer : Pubkey) (value : Nat)
    (st : Option ComputeResult) : Option ComputeResult × Option X402Error :=
  match x402Verify required expected currentIndex instrs with
  | .error e => (st, some e)
  | .ok _ => (some { owner := payer, value := value, paid := true }, none)

/-- Bool test of whether the pattern is a prefix of the string, as used by
non-overlapping pattern search in str::split. -/
def startsWithPat : List Char → List Char → Bool
  | [], _ => true
  | _ :: _, [] => false
  | p :: ps, c :: cs => p == c && startsWithPat ps cs

/-- Worker for splitOnChars. The fuel argument only bounds recursion depth;
it starts at the string length plus one and every step consumes at least one
character, so the fuel-exhausted branch is unreachable. -/
def splitGo (pat : List Char) : Nat → List Char → List Char → List (List Char)
  | _, [], acc => [acc.reverse]
  | 0, s, acc => [acc.reverse ++ s]
  | fuel + 1, c :: rest, acc =>
    if startsWithPat pat (c :: rest) then
      acc.reverse :: splitGo pat fuel ((c :: rest).drop pat.length) []
    else
      splitGo pat fuel rest (c :: acc)

/-- str::split with a nonempty pattern: the pieces between the leftmost
non-overlapping occurrences of the pattern, including empty leading,
adjacent and trailing pieces. -/
def splitOnChars (pat s : List Char) : List (List Char) :=
  if pat = [] then [s] else splitGo pat (s.length + 1) s []

/-- str::trim restricted to the ASCII whitespace that proc-macro token
streams can contain. -/
def trimChars (s : List Char) : List Char :=
  ((s.dropWhile Char.isWhitespace).reverse.dropWhile Char.isWhitespace).reverse

/-- str::trim_matches with a char pattern: strips every leading and trailing
occurrence of the char. -/
def trimMatches (ch : Char) (s : List Char) : List Char :=
  ((s.dropWhile (· == ch)).reverse.dropWhile (· == ch)).reverse

/-- u64::from_str as used by str::parse::<u64>: an optional leading plus
sign followed by at least one ASCII digit, rejecting any other character
(including underscores) and values of 2 ^ 64 or more. -/
def parse_u64 (s : List Char) : Option Nat :=
  let t :=
    match s with
    | '+' :: rest => rest
    | _ => s
  if t = [] then none
  else if t.all (fun c => c.isDigit) then
    let n := t.foldl (fun a c => 10 * a + (c.toNat - 48)) 0
    if n < 2 ^ 64 then some n else none
  else none

/-- extract_price from x402-macros/src/lib.rs: the text after the first
occurrence of the word price and the first equals sign following it, up to
the next comma, trimmed and parsed as u64. -/
def extract_price (args : String) : Option Nat :=
  match (splitOnChars "price".data args.data).get? 1 with
  | none => none
  | some afterKey =>
    match (splitOnChars ['='] afterKey).get? 1 with
    | none => none
    | some afterEq =>
      match (splitOnChars [','] (trimChars afterEq)).get? 0 with
      | none => none
      | some firstPiece => parse_u64 (trimChars firstPiece)

/-- extract_recipient from x402-macros/src/lib.rs: the text after the first
occurrence of the word recipient and the first equals sign following it, up
to the next comma, trimmed and stripped of surrounding double quotes. The
macro binds this value to an underscore-prefixed variable and never uses it. -/
def extract_recipient (args : String) : Option String :=
  match (splitOnChars "recipient".data args.data).get? 1 with
  | none => none
  | some afterKey =>
    match (splitOnChars ['='] afterKey).get? 1 with
    | none => none
    | some afterEq =>
      match (splitOnChars [','] (trimChars afterEq)).get? 0 with
      | none => none
      | some firstPiece => some ⟨trimMatches '"' (trimChars firstPiece)⟩

/-- The recipient pubkey hardcoded in the quote! template of the macro. -/
def expectedRecipientKey : Pubkey :=
  "ESPyXCB93a6CvrAE2btofpgXAswf4oE3NuziBsHVCAZa"

/-- The parameters the expanded guard actually checks against. -/
structure GateConfig where
  requiredAmount : Nat
  expectedRecipient : Pubkey
deriving DecidableEq, Repr

/-- The guard configuration produced by macro expansion for given attribute
arguments: the required amount comes from extract_price with a default of
1000000, while the expected recipient is the hardcoded pubkey literal,
independent of the parsed recipient argument. The token and facilitator_fee
arguments are likewise parsed into unused bindings. -/
def x402_expand_config (args : String) : GateConfig :=
  { requiredAmount := (extract_price args).getD 1000000,
    expectedRecipient := expectedRecipientKey }

/-- Error codes of the example program that the claims mention. -/
inductive ErrorCode where
  | InsufficientPayment
  | InvalidPaymentAmount
  | InvalidPaymentRecipient
  | PaymentVerificationFailed
  | InsufficientBalance
deriving DecidableEq, Repr

/-- free_compute from x402-example/src/lib.rs: no guard runs; the result is
always created with value 0 and paid false, owned by the payer. -/
def free_compute (payer : Pubkey) : Except ErrorCode ComputeResult :=
  .ok { owner := payer, value := 0, paid := false }

/-- verify_payment from x402-example/src/lib.rs: succeeds exactly when the
payer balance reaches the fixed 1000000 threshold; it is a function of the
payer balance alone, since its accounts context holds only the payer. -/
def verify_payment (payerLamports : Nat) : Except ErrorCode Unit :=
  if payerLamports < 1000000 then .error .InsufficientPayment
  else .ok ()

/-- The per-payer cumulative payment record. -/
structure PaymentLedger where
  payer : Pubkey
  total_payments : Nat
  total_amount : Nat
  last_payment : Int
deriving DecidableEq, Repr

/-- Failures of record_payment: the explicit zero-amount rejection, and an
aborted call when a u64 counter would overflow. -/
inductive RecordFailure where
  | InvalidPaymentAmount
  | Overflow
deriving DecidableEq, Repr

/-- Modelled from the spec: the build profile (the workspace Cargo.toml,
absent from src/) decides the behavior of u64 addition overflow in
record_payment. The spec states that totals are exact sums and that
total_amount is monotonically non-decreasing, which corresponds to checked
addition where an overflowing call aborts, as Anchor's standard
overflow-checks release profile compiles it. -/
def u64CheckedAdd (a b : Nat) : Option Nat :=
  if a + b < 2 ^ 64 then some (a + b) else none

/-- record_payment from x402-example/src/lib.rs: rejects a zero amount, then
increments total_payments by one, adds the amount to total_amount and stamps
last_payment with the clock; the payer field is never written. -/
def record_payment (amount : Nat) (now : Int) (l : PaymentLedger) :
    Except RecordFailure PaymentLedger :=
  if amount = 0 then .error .InvalidPaymentAmount
  else
    match u64CheckedAdd l.total_payments 1, u64CheckedAdd l.total_amount amount with
    | some p, some t =>
      .ok { l with total_payments := p, total_amount := t, last_payment := now }
    | _, _ => .error .Overflow

/-- record_payment viewed at the transaction boundary: a failed call aborts
and leaves the stored ledger record unchanged. -/
def record_payment_run (amount : Nat) (now : Int) (l : PaymentLedger) :
    PaymentLedger × Option RecordFailure :=
  match record_payment amount now l with
  | .ok l2 => (l2, none)
  | .error e => (l, some e)

/-- A sequence of record_payment calls on one ledger record, stopping at the
first failure. -/
def record_payments (amounts : List Nat) (now : Int) (l : PaymentLedger) :
    Except RecordFailure PaymentLedger :=
  match amounts with
  | [] => .ok l
  | a :: rest =>
    match record_payment a now l with
    | .ok l2 => record_payments rest now l2
    | .error e => .error e

/-- A lazily created ledger record as Anchor zero-initializes it: every
field at its default, in particular the payer field at the default (all
zero bytes) pubkey. -/
def defaultPubkey : Pubkey := "11111111111111111111111111111111"

/-- The freshly created ledger record before any successful payment. -/
def freshLedger : PaymentLedger :=
  { payer := defaultPubkey, total_payments := 0, total_amount := 0,
    last_payment := 0 }

/-- A concrete predecessor payment instruction: a 16-byte payload whose
bytes 8..16 are the little-endian encoding of 1000000, with the hardcoded
recipient at account index 1. -/
def paymentIxW : Instruction :=
  { accounts := ["PayerKey1111", expectedRecipientKey],
    data := [0, 0, 0, 0, 0, 0, 0, 0, 64, 66, 15, 0, 0, 0, 0, 0] }

/-- Unfolding lemma for a successful record_payment call: the amount was
positive, the two counters grew exactly as the source writes them, the clock
was stamped, and the payer field kept its value. -/
theorem record_payment_ok (a : Nat) (now : Int) (l l2 : PaymentLedger)
    (h : record_payment a now l = .ok l2) :
    0 < a ∧ l2.total_payments = l.total_payments + 1
      ∧ l2.total_amount = l.total_amount + a
      ∧ l2.payer = l.payer ∧ l2.last_payment = now := by
  unfold record_payment u64CheckedAdd at h
  by_cases h0 : a = 0
  · rw [if_pos h0] at h
    exact Except.noConfusion h
  · rw [if_neg h0] at h
    by_cases h1 : l.total_payments + 1 < 2 ^ 64
    · by_cases h2 : l.total_amount + a < 2 ^ 64
      · rw [if_pos h1, if_pos h2] at h
        simp at h
        subst h
        exact ⟨by omega, rfl, rfl, rfl, rfl⟩
      · rw [if_pos h1, if_neg h2] at h
        exact Except.noConfusion h
    · rw [if_neg h1] at h
      by_cases h2 : l.total_amount + a < 2 ^ 64
      · rw [if_pos h2] at h
        exact Except.noConfusion h
      · rw [if_neg h2] at h
        exact Except.noConfusion h

/-- Accumulation lemma for a successful sequence of record_payment calls:
counters grow by the length and the sum of the amounts, and the payer field
is untouched. -/
theorem record_payments_accumulate (amounts : List Nat) (now : Int) :
    ∀ l l2 : PaymentLedger, record_payments amounts now l = .ok l2 →
      l2.total_payments = l.total_payments + amounts.length
      ∧ l2.total_amount = l.total_amount + amounts.sum
      ∧ l2.payer = l.payer := by
  induction amounts with
  | nil =>
    intro l l2 h
    simp [record_payments] at h
    subst h
    simp
  | cons a rest ih =>
    intro l l2 h
    unfold record_payments at h
    cases hstep : record_payment a now l with
    | error e =>
      rw [hstep] at h
      simp at h
    | ok l1 =>
      rw [hstep] at h
      simp at h
      obtain ⟨-, hp, ht, hpayer, -⟩ := record_payment_ok a now l l1 hstep
      obtain ⟨ihp, iht, ihpayer⟩ := ih l1 l2 h
      refine ⟨by simp; omega, by simp; omega, by rw [ihpayer, hpayer]⟩

/-- Claim C1: when the gated instruction at index i has a predecessor at
index i-1 whose payload decodes to amount A and whose account reference at
index 1 is R, the gate with required price P and expected recipient E
succeeds iff A is at least P and R equals E; A equal to P succeeds and A
equal to P-1 fails with InsufficientPayment; an amount below P fails with
InsufficientPayment, a wrong recipient with InvalidRecipient, and on any
failure the gated operation returns the error and leaves the result state
unchanged. -/
theorem x402_gate_correct (P : Nat) (E : Pubkey) (i : Nat)
    (instrs : List Instruction) (prev : Instruction) (A : Nat) (R : Pubkey)
    (payer : Pubkey) (v : Nat)
    (hi : 1 ≤ i) (hprev : instrs.get? (i - 1) = some prev)
    (hA : decodePaymentAmount prev.data = .ok A)
    (hR : prev.accounts.get? 1 = some R) :
    (x402Verify P E i instrs = .ok () ↔ P ≤ A ∧ R = E)
    ∧ (A < P → x402Verify P E i instrs = .error .InsufficientPayment)
    ∧ (P ≤ A → R ≠ E → x402Verify P E i instrs = .error .InvalidRecipient)
    ∧ (A = P → R = E → x402Verify P E i instrs = .ok ())
    ∧ (0 < P → A = P - 1 → x402Verify P E i instrs = .error .InsufficientPayment)
    ∧ (∀ st, x402Verify P E i instrs = .ok () →
        runGated P E i instrs payer v st
          = (some { owner := payer, value := v, paid := true }, none))
    ∧ (∀ st e, x402Verify P E i instrs = .error e →
        runGated P E i instrs payer v st = (st, some e)) := by
  have hi0 : ¬ i = 0 := by omega
  have hverify : x402Verify P E i instrs =
      if A < P then .error .InsufficientPayment
      else if prev.accounts.get? 1 = some E then .ok ()
      else .error .InvalidRecipient := by
    unfold x402Verify
    rw [if_neg hi0, hprev]
    show (match decodePaymentAmount prev.data with
      | Except.error e => Except.error e
      | Except.ok amount =>
        if amount < P then Except.error X402Error.InsufficientPayment
        else if prev.accounts.get? 1 = some E then Except.ok ()
        else Except.error X402Error.InvalidRecipient
      : Except X402Error Unit) = _
    rw [hA]
  have hacc : (prev.accounts.get? 1 = some E) ↔ R = E := by
    rw [hR]
    exact ⟨fun h => Option.some.inj h, fun h => by rw [h]⟩
  refine ⟨?_, ?_, ?_, ?_, ?_, ?_, ?_⟩
  · rw [hverify]
    by_cases h1 : A < P
    · rw [if_pos h1]
      exact ⟨fun h => Except.noConfusion h, fun hc => absurd hc.1 (by omega)⟩
    · rw [if_neg h1]
      by_cases h2 : prev.accounts.get? 1 = some E
      · rw [if_pos h2]
        exact ⟨fun _ => ⟨by omega, hacc.mp h2⟩, fun _ => rfl⟩
      · rw [if_neg h2]
        exact ⟨fun h => Except.noConfusion h, fun hc => absurd (hacc.mpr hc.2) h2⟩
  · intro h1
    rw [hverify, if_pos h1]
  · intro h1 h2
    rw [hverify, if_neg (by omega), if_neg (fun hx => h2 (hacc.mp hx))]
  · intro hAP hRE
    rw [hverify, if_neg (by omega), if_pos (hacc.mpr hRE)]
  · intro hP hA1
    rw [hverify, if_pos (by omega)]
  · intro st h
    simp [runGated, h]
  · intro st e h
    simp [runGated, h]

/-- Witness for claim C1: a transaction whose instruction 1 is gated at
price 1000000, preceded by a 16-byte payment payload encoding exactly
1000000 with the expected recipient at account index 1, passes the gate. -/
theorem x402_gate_correct_w :
    x402Verify 1000000 expectedRecipientKey 1 [paymentIxW] = .ok () :=
  (x402_gate_correct 1000000 expectedRecipientKey 1 [paymentIxW] paymentIxW
      1000000 expectedRecipientKey "PayerKey1111" 42 (by decide) rfl rfl
      rfl).1.mpr ⟨by decide, rfl⟩

/-- Claim C2: a payload of length at least 16 decodes the little-endian u64
at byte offsets 8..16, a payload of length exactly 8 decodes the
little-endian u64 at offsets 0..8, and any other length fails with
MalformedPaymentPayload. -/
theorem decode_payload_spec (data : List Nat) :
    (16 ≤ data.length →
      decodePaymentAmount data = .ok (u64_from_le_bytes ((data.drop 8).take 8)))
    ∧ (data.length = 8 →
      decodePaymentAmount data = .ok (u64_from_le_bytes (data.take 8)))
    ∧ (data.length < 16 → data.length ≠ 8 →
      decodePaymentAmount data = .error .MalformedPaymentPayload) := by
  refine ⟨fun h => ?_, fun h => ?_, fun h1 h2 => ?_⟩
  · rw [decodePaymentAmount, if_pos h]
  · rw [decodePaymentAmount, if_neg (by omega), if_pos h]
  · rw [decodePaymentAmount, if_neg (by omega), if_neg h2]

/-- Witness for claim C2: the three length policies evaluated at a 16-byte
payload, an 8-byte payload and a 3-byte payload. -/
theorem decode_payload_spec_w :
    decodePaymentAmount paymentIxW.data
      = .ok (u64_from_le_bytes ((paymentIxW.data.drop 8).take 8))
    ∧ decodePaymentAmount [7, 0, 0, 0, 0, 0, 0, 0]
      = .ok (u64_from_le_bytes (([7, 0, 0, 0, 0, 0, 0, 0] : List Nat).take 8))
    ∧ decodePaymentAmount [1, 2, 3] = .error .MalformedPaymentPayload :=
  ⟨(decode_payload_spec paymentIxW.data).1 (by decide),
   (decode_payload_spec [7, 0, 0, 0, 0, 0, 0, 0]).2.1 (by decide),
   (decode_payload_spec [1, 2, 3]).2.2 (by decide) (by decide)⟩

/-- Counterexample to claim C3: a payload strictly longer than 16 bytes is
not rejected with MalformedPaymentPayload; a 17-byte all-zero payload
decodes successfully to amount 0. -/
theorem decode_gt16_not_malformed :
    16 < (List.replicate 17 (0 : Nat)).length
    ∧ decodePaymentAmount (List.replicate 17 (0 : Nat)) = .ok 0 :=
  ⟨by decide, rfl⟩

/-- Claim C3 as amended: a payload of exactly 16 bytes decodes at offsets
8..16 and a payload of exactly 8 bytes decodes at offsets 0..8; lengths in
0..7 and 9..15 are rejected with MalformedPaymentPayload; lengths strictly
above 16 are not rejected and also decode at offsets 8..16. -/
theorem decode_length_policy (data : List Nat) :
    (data.length < 8 → decodePaymentAmount data = .error .MalformedPaymentPayload)
    ∧ (9 ≤ data.length → data.length ≤ 15 →
        decodePaymentAmount data = .error .MalformedPaymentPayload)
    ∧ (data.length = 16 →
        decodePaymentAmount data = .ok (u64_from_le_bytes ((data.drop 8).take 8)))
    ∧ (data.length = 8 →
        decodePaymentAmount data = .ok (u64_from_le_bytes (data.take 8)))
    ∧ (16 < data.length →
        decodePaymentAmount data = .ok (u64_from_le_bytes ((data.drop 8).take 8))) := by
  refine ⟨fun h => ?_, fun h1 h2 => ?_, fun h => ?_, fun h => ?_, fun h => ?_⟩
  · rw [decodePaymentAmount, if_neg (by omega), if_neg (by omega)]
  · rw [decodePaymentAmount, if_neg (by omega), if_neg (by omega)]
  · rw [decodePaymentAmount, if_pos (by omega)]
  · rw [decodePaymentAmount, if_neg (by omega), if_pos h]
  · rw [decodePaymentAmount, if_pos (by omega)]

/-- Witness for the amended claim C3: the five length policies evaluated at
payloads of lengths 2, 10, 16, 8 and 20. -/
theorem decode_length_policy_w :
    decodePaymentAmount [9, 9] = .error .MalformedPaymentPayload
    ∧ decodePaymentAmount (List.replicate 10 (3 : Nat))
      = .error .MalformedPaymentPayload
    ∧ decodePaymentAmount (List.replicate 16 (2 : Nat))
      = .ok (u64_from_le_bytes (((List.replicate 16 (2 : Nat)).drop 8).take 8))
    ∧ decodePaymentAmount [1, 0, 0, 0, 0, 0, 0, 0]
      = .ok (u64_from_le_bytes (([1, 0, 0, 0, 0, 0, 0, 0] : List Nat).take 8))
    ∧ decodePaymentAmount (List.replicate 20 (0 : Nat))
      = .ok (u64_from_le_bytes (((List.replicate 20 (0 : Nat)).drop 8).take 8)) :=
  ⟨(decode_length_policy [9, 9]).1 (by decide),
   (decode_length_policy (List.replicate 10 3)).2.1 (by decide) (by decide),
   (decode_length_policy (List.replicate 16 2)).2.2.1 (by decide),
   (decode_length_policy [1, 0, 0, 0, 0, 0, 0, 0]).2.2.2.1 (by decide),
   (decode_length_policy (List.replicate 20 0)).2.2.2.2 (by decide)⟩

/-- Claim C4: at current instruction index 0 the verifier fails with
MissingPaymentInstruction whatever the transaction's instructions hold, and
the gated operation returns that error with the result state unchanged. -/
theorem verify_at_index_zero (required : Nat) (expected : Pubkey)
    (instrs : List Instruction) (payer : Pubkey) (v : Nat)
    (st : Option ComputeResult) :
    x402Verify required expected 0 instrs = .error .MissingPaymentInstruction
    ∧ runGated required expected 0 instrs payer v st
      = (st, some .MissingPaymentInstruction) :=
  ⟨rfl, rfl⟩

/-- Claim C5: after any sequence of successful record_payment calls on a
freshly created ledger record, total_payments equals the number of calls and
total_amount equals the sum of the amounts; a zero-amount call fails with
InvalidPaymentAmount and leaves the record unchanged. -/
theorem record_payment_sequence_spec :
    (∀ (amounts : List Nat) (now : Int) (l2 : PaymentLedger),
        record_payments amounts now freshLedger = .ok l2 →
          l2.total_payments = amounts.length ∧ l2.total_amount = amounts.sum)
    ∧ ∀ (now : Int) (l : PaymentLedger),
        record_payment_run 0 now l = (l, some .InvalidPaymentAmount) := by
  constructor
  · intro amounts now l2 h
    obtain ⟨hp, ht, -⟩ := record_payments_accumulate amounts now freshLedger l2 h
    constructor
    · simpa [freshLedger] using hp
    · simpa [freshLedger] using ht
  · intro now l
    rfl

/-- Witness for claim C5: two successful calls with amounts 3 and 4 yield
two payments totalling 7. -/
theorem record_payment_sequence_spec_w :
    (PaymentLedger.mk defaultPubkey 2 7 5).total_payments
      = ([3, 4] : List Nat).length
    ∧ (PaymentLedger.mk defaultPubkey 2 7 5).total_amount
      = ([3, 4] : List Nat).sum :=
  record_payment_sequence_spec.1 [3, 4] 5 (PaymentLedger.mk defaultPubkey 2 7 5)
    rfl

/-- Claim C6: a successful record_payment never decreases total_amount,
increments total_payments by exactly one, and only a strictly positive
amount is ever added. -/
theorem record_payment_invariants (a : Nat) (now : Int) (l l2 : PaymentLedger)
    (h : record_payment a now l = .ok l2) :
    l.total_amount ≤ l2.total_amount
    ∧ l2.total_payments = l.total_payments + 1
    ∧ 0 < a := by
  obtain ⟨h0, h1, h2, -, -⟩ := record_payment_ok a now l l2 h
  exact ⟨by omega, h1, h0⟩

/-- Witness for claim C6: recording amount 5 on a fresh record. -/
theorem record_payment_invariants_w :
    freshLedger.total_amount ≤ (PaymentLedger.mk defaultPubkey 1 5 9).total_amount
    ∧ (PaymentLedger.mk defaultPubkey 1 5 9).total_payments
      = freshLedger.total_payments + 1
    ∧ 0 < 5 :=
  record_payment_invariants 5 9 freshLedger (PaymentLedger.mk defaultPubkey 1 5 9)
    rfl

/-- Claim C7: whatever arguments are given to the x402 attribute, the
recipient the expanded guard checks against is the hardcoded pubkey; the
recipient argument is parsed by extract_recipient, as shown on arguments
naming a different recipient, yet the expanded configuration ignores it. -/
theorem recipient_argument_ignored :
    (∀ args : String,
      (x402_expand_config args).expectedRecipient = expectedRecipientKey)
    ∧ extract_recipient
        "price = 2000, recipient = \"AnotherRecipientKey11111111111111111111111\""
      = some "AnotherRecipientKey11111111111111111111111"
    ∧ ("AnotherRecipientKey11111111111111111111111" == expectedRecipientKey)
      = false :=
  ⟨fun _ => rfl, rfl, rfl⟩

/-- Claim C8: free_compute bypasses the gate, always succeeds, and creates a
result with value 0 and paid false owned by the calling payer. -/
theorem free_compute_spec (payer : Pubkey) :
    free_compute payer = .ok { owner := payer, value := 0, paid := false } :=
  rfl

/-- Claim C9: verify_payment fails with InsufficientPayment exactly when the
caller's balance is strictly below 1000000, and a balance of exactly
1000000 succeeds. -/
theorem verify_payment_spec (balance : Nat) :
    (verify_payment balance = .error .InsufficientPayment ↔ balance < 1000000)
    ∧ (1000000 ≤ balance → verify_payment balance = .ok ()) := by
  constructor
  · by_cases h : balance < 1000000 <;> simp [verify_payment, h]
  · intro h
    rw [verify_payment, if_neg (by omega)]

/-- Witness for claim C9: the exact threshold balance of 1000000 passes. -/
theorem verify_payment_spec_w : verify_payment 1000000 = .ok () :=
  (verify_payment_spec 1000000).2 (by decide)

/-- Claim C10: record_payment never writes the payer field, so after any
successful call the field keeps its prior value, and after any successful
sequence of calls on a freshly created record it still holds the all-zero
default pubkey. -/
theorem record_payment_preserves_payer :
    (∀ (a : Nat) (now : Int) (l l2 : PaymentLedger),
        record_payment a now l = .ok l2 → l2.payer = l.payer)
    ∧ ∀ (amounts : List Nat) (now : Int) (l2 : PaymentLedger),
        record_payments amounts now freshLedger = .ok l2 →
          l2.payer = defaultPubkey := by
  constructor
  · intro a now l l2 h
    exact (record_payment_ok a now l l2 h).2.2.2.1
  · intro amounts now l2 h
    have hp := (record_payments_accumulate amounts now freshLedger l2 h).2.2
    simpa [freshLedger] using hp

/-- Witness for claim C10: recording amount 6 on a fresh record keeps the
default payer. -/
theorem record_payment_preserves_payer_w :
    (PaymentLedger.mk defaultPubkey 1 6 2).payer = freshLedger.payer
    ∧ (PaymentLedger.mk defaultPubkey 1 6 2).payer = defaultPubkey :=
  ⟨record_payment_preserves_payer.1 6 2 freshLedger
      (PaymentLedger.mk defaultPubkey 1 6 2) rfl,
   record_payment_preserves_payer.2 [6] 2
      (PaymentLedger.mk defaultPubkey 1 6 2) rfl⟩

end X402
